import Mathlib

/-!
Verification of the vapor-compression refrigeration simulator:
a shallow embedding of `src/backend/motor_termodinamico.py` and
`src/scripts/generar_datos.py`, with theorems checking the stated
properties of the cycle solver and the telemetry generator.

Machine floats are modelled by exact rationals; CoolProp (`PropsSI`) and
Python's `random` / `datetime` libraries are external collaborators and are
modelled by injected interfaces (a property provider record, a draw stream
standing for the global generator state, and a clock record).
-/

set_option maxRecDepth 4000

namespace SimRefri

/-! ### Model of Python's global `random` generator

`generar_datos.py` calls `random.gauss`, `random.random` and `random.uniform`
on the module-global Mersenne-Twister instance.  We model that global state
as a stream of rational draws together with a cursor: each primitive consumes
one draw.  For `gauss` the draw stands for the standard-normal variate; for
`random` it stands for the value in `[0,1)`; for `uniform a b` it stands for
the fraction in `[0,1]` so the result is `a + (b - a) * u`. -/

structure RandState where
  draws : Nat → ℚ
  idx : Nat

/-- Consume one draw from the global generator state. -/
def siguiente (g : RandState) : ℚ × RandState :=
  (g.draws g.idx, ⟨g.draws, g.idx + 1⟩)

/-- Model of `random.gauss(mu, sigma)`: the draw is the standard-normal variate. -/
def random_gauss (mu sigma : ℚ) (g : RandState) : ℚ × RandState :=
  let (u, g') := siguiente g
  (mu + sigma * u, g')

/-- Model of `random.random()`: the draw is the produced value in `[0,1)`. -/
def random_random (g : RandState) : ℚ × RandState :=
  siguiente g

/-- Model of `random.uniform(a, b)`: the draw is the fraction in `[0,1]`. -/
def random_uniform (a b : ℚ) (g : RandState) : ℚ × RandState :=
  let (u, g') := siguiente g
  (a + (b - a) * u, g')

/-! ### Model of Python's `round(x, d)` (round half to even) -/

/-- Round a rational to the nearest integer, ties to even, as Python's `round`. -/
def round_half_even (x : ℚ) : ℤ :=
  let n := ⌊x⌋
  let frac := x - (n : ℚ)
  if frac < 1 / 2 then n
  else if 1 / 2 < frac then n + 1
  else if n % 2 = 0 then n else n + 1

/-- Model of Python's `round(x, d)` on exact rationals. -/
def pyRound (d : Nat) (x : ℚ) : ℚ :=
  (round_half_even (x * 10 ^ d) : ℚ) / 10 ^ d

/-! ### Property provider (CoolProp `PropsSI`, external collaborator)

`motor_termodinamico.py` issues exactly these query shapes against the
refrigerant R134a.  Each field maps the two input property values to the
requested output; `none` models a raised lookup failure
(`PropertyLookupError` / CoolProp `ValueError`). -/

structure PropiedadesR134a where
  /-- `PropsSI("H", "T", t, "Q", q)` -/
  H_TQ : ℚ → ℚ → Option ℚ
  /-- `PropsSI("S", "T", t, "Q", q)` -/
  S_TQ : ℚ → ℚ → Option ℚ
  /-- `PropsSI("P", "T", t, "Q", q)` -/
  P_TQ : ℚ → ℚ → Option ℚ
  /-- `PropsSI("H", "P", p, "S", s)` -/
  H_PS : ℚ → ℚ → Option ℚ
  /-- `PropsSI("S", "P", p, "H", h)` -/
  S_PH : ℚ → ℚ → Option ℚ
  /-- `PropsSI("H", "P", p, "Q", q)` -/
  H_PQ : ℚ → ℚ → Option ℚ
  /-- `PropsSI("T", "P", p, "Q", q)` -/
  T_PQ : ℚ → ℚ → Option ℚ
  /-- `PropsSI("Q", "P", p, "H", h)` -/
  Q_PH : ℚ → ℚ → Option ℚ
  /-- `PropsSI("T", "H", h, "P", p)` -/
  T_HP : ℚ → ℚ → Option ℚ
  /-- `PropsSI("S", "P", p, "Q", q)` -/
  S_PQ : ℚ → ℚ → Option ℚ

/-- A provider whose every query resolves to a constant, used to instantiate
the solver on concrete inputs. -/
def constProv (h1c s1c pcc h2ic s2c h3c t3c x4c t2c s3c : ℚ) : PropiedadesR134a :=
  ⟨fun _ _ => some h1c, fun _ _ => some s1c, fun _ _ => some pcc,
   fun _ _ => some h2ic, fun _ _ => some s2c, fun _ _ => some h3c,
   fun _ _ => some t3c, fun _ _ => some x4c, fun _ _ => some t2c,
   fun _ _ => some s3c⟩

/-! ### The cycle solver (`src/backend/motor_termodinamico.py`) -/

/-- One thermodynamic state as stored in `resultados["states"]`. -/
structure Estado where
  P : ℚ
  T : ℚ
  h : ℚ
  s : ℚ
  desc : String
deriving DecidableEq

/-- The `resultados` dictionary returned by `simular_refrigerador`:
the `"scalar"` entries followed by states 1-4. -/
structure Resultados where
  Trabajo_Compresor_kW : ℚ
  Calor_Extraido_kW : ℚ
  COP : ℚ
  Calidad_Evap : ℚ
  Temp_Descarga_C : ℚ
  Flujo_Masico_kg_s : ℚ
  estado1 : Estado
  estado2 : Estado
  estado3 : Estado
  estado4 : Estado
deriving DecidableEq

/-- Shallow embedding of `simular_refrigerador`
(`src/backend/motor_termodinamico.py`, lines 7-91).  Temperatures in degC are
converted to kelvin by adding 273.15 (pint); `.to('kW')` divides by 1000.
Every `PropsSI` query goes through the injected provider; a `none` answer
models the raised lookup error propagating out of the function.  A division
whose divisor is zero (the `/ eta_isentropica` at line 44, the `/ Trabajo`
at line 66) models Python's `ZeroDivisionError`, also rendered `none`.
The function performs no parameter validation, defines no error classes of
its own, and reaches the final `return` whenever every lookup resolves and
no division by zero occurs. -/
def simular_refrigerador (prop : PropiedadesR134a)
    (T_ambiente_C T_interior_C Flujo_masico_kg_s eta_isentropica Delta_T_cond_C : ℚ) :
    Option Resultados :=
  let T_ambiente := T_ambiente_C + 273.15
  let T_interior := T_interior_C + 273.15
  let Flujo_masico := Flujo_masico_kg_s
  let Delta_T_cond := Delta_T_cond_C
  match prop.H_TQ T_interior 1 with
  | none => none
  | some h1 =>
  match prop.S_TQ T_interior 1 with
  | none => none
  | some s1 =>
  match prop.P_TQ (T_ambiente + Delta_T_cond) 0 with
  | none => none
  | some P_condensacion =>
  let P2 := P_condensacion
  match prop.H_PS P2 s1 with
  | none => none
  | some h2_ideal =>
  if eta_isentropica = 0 then none else
  let h2 := h1 + (h2_ideal - h1) / eta_isentropica
  let Trabajo_necesario := Flujo_masico * (h2 - h1)
  match prop.S_PH P2 h2 with
  | none => none
  | some s2 =>
  let P3 := P2
  match prop.H_PQ P3 0 with
  | none => none
  | some h3 =>
  match prop.T_PQ P3 0 with
  | none => none
  | some T3 =>
  let h4 := h3
  match prop.P_TQ T_interior 1 with
  | none => none
  | some P4 =>
  match prop.Q_PH P4 h4 with
  | none => none
  | some x4 =>
  let Q_evap := Flujo_masico * (h1 - h4)
  if Trabajo_necesario = 0 then none else
  let COP := Q_evap / Trabajo_necesario
  match prop.T_HP h2 P2 with
  | none => none
  | some T2_real =>
  match prop.S_PQ P3 0 with
  | none => none
  | some s3 =>
  match prop.S_PH P4 h4 with
  | none => none
  | some s4 =>
  some ⟨Trabajo_necesario / 1000, Q_evap / 1000, COP, x4,
        T2_real - 273.15, Flujo_masico,
        ⟨P4, T_interior, h1, s1, "Entrada Compresor"⟩,
        ⟨P2, T2_real, h2, s2, "Entrada Condensador"⟩,
        ⟨P3, T3, h3, s3, "Salida Condensador"⟩,
        ⟨P4, T_interior, h4, s4, "Entrada Evaporador"⟩⟩

/-! ### The telemetry generator (`src/scripts/generar_datos.py`) -/

/-- Generator configuration constant `DIAS_SIMULACION = 7`. -/
def DIAS_SIMULACION : Nat := 7

/-- Generator configuration constant `FRECUENCIA_HORAS = 1`. -/
def FRECUENCIA_HORAS : Nat := 1

/-- One entry of the `EQUIPOS` configuration dictionary. -/
structure Equipo where
  id : String
  t_interior : ℚ
  flujo : ℚ
deriving DecidableEq

/-- The `EQUIPOS` dictionary, in Python insertion order. -/
def EQUIPOS : List Equipo :=
  [⟨"CAMARA_01_CARNES", -18, 0.12⟩,
   ⟨"CAMARA_02_LACTEOS", 4, 0.08⟩,
   ⟨"CAMARA_03_VERDURAS", 4, 0.08⟩]

/-- `total_puntos = DIAS_SIMULACION * 24 // FRECUENCIA_HORAS`. -/
def total_puntos : Nat := DIAS_SIMULACION * 24 / FRECUENCIA_HORAS

/-- Embedding of `calcular_temperatura_ambiente(hora, dia_del_anio)`
(lines 36-54).  The function takes no random-source parameter in the source;
its Gaussian noise comes from the module-global generator, here the explicit
`RandState` threaded through. -/
def calcular_temperatura_ambiente (hora dia_del_anio : ℤ) (g : RandState) :
    ℚ × RandState :=
  let temp_base_invierno : ℚ := -5
  let temp_base_verano : ℚ := 10
  let factor_estacion : ℚ := 0.5 * (1 + ((dia_del_anio : ℚ) - 172) / 172)
  let temp_base := temp_base_invierno + (temp_base_verano - temp_base_invierno) * factor_estacion
  let variacion_diurna : ℚ := 4 * (1 - |(hora : ℚ) - 15| / 12)
  let (ruido, g') := random_gauss 0 1.5 g
  (pyRound 1 (temp_base + variacion_diurna + ruido), g')

/-- Embedding of `simular_evento_apertura_puerta()` (lines 57-69): the
discrete door-opening ladder, drawing from the global generator. -/
def simular_evento_apertura_puerta (g : RandState) : ℚ × RandState :=
  let (prob_apertura, g1) := random_random g
  if prob_apertura < 0.05 then random_uniform 3 8 g1
  else if prob_apertura < 0.20 then random_uniform 1 3 g1
  else (0, g1)

/-- Embedding of the inline state classification of `generar_datos`
(lines 128-133), as a function of the unrounded condenser delta-T and COP. -/
def clasificar_estado (delta_t_cond cop : ℚ) : String :=
  if delta_t_cond > 25 ∨ cop < 2.0 then "ALARMA"
  else if delta_t_cond > 20 ∨ cop < 2.5 then "ADVERTENCIA"
  else "NORMAL"

/-- The operating parameters handed to `simular_refrigerador` for one
(tick, equipment) cell. -/
structure ParametrosOperacion where
  t_ambiente : ℚ
  t_interior : ℚ
  flujo : ℚ
  eta : ℚ
  delta_t_cond : ℚ
deriving DecidableEq

/-- Embedding of the per-cell parameter derivation inside the `for id_equipo`
loop of `generar_datos` (lines 98-113): base delta-T 15 plus the door-opening
excursion, progressive fouling inflation once `dias_restantes <= 2`, and the
clamped efficiency jitter.  Consumes the same global draws, in the same
order, as the source. -/
def parametros_celda (i : Nat) (t_ambiente : ℚ) (equipo : Equipo) (g : RandState) :
    ParametrosOperacion × RandState :=
  let delta_t_cond_base : ℚ := 15
  let (apertura, g1) := simular_evento_apertura_puerta g
  let delta_t_cond0 := delta_t_cond_base + apertura
  let dias_restantes : ℤ := (DIAS_SIMULACION : ℤ) - (i : ℤ) / 24
  let delta_t_cond :=
    if dias_restantes ≤ 2 then
      delta_t_cond0 * (1 + (2 - (dias_restantes : ℚ)) * 0.7)
    else delta_t_cond0
  let eta_base : ℚ := 0.75
  let (variacion_eta, g2) := random_uniform (-0.03) 0.02 g1
  let eta := max 0.60 (min 0.85 (eta_base + variacion_eta))
  (⟨t_ambiente, equipo.t_interior, equipo.flujo, eta, delta_t_cond⟩, g2)

/-- Model of the `datetime` arithmetic (external collaborator): the run start
is `datetime.now() - 7 days`, an ambient input; the clock yields, for tick
`i`, the hour of day, day of year and formatted timestamp of
`fecha_inicio + i hours`. -/
structure Reloj where
  hora : Nat → ℤ
  dia_del_anio : Nat → ℤ
  timestamp : Nat → String

/-- One row appended to `registros` (lines 135-148). -/
structure Registro where
  timestamp : String
  id_equipo : String
  t_ambiente_C : ℚ
  t_interior_C : ℚ
  delta_t_cond_C : ℚ
  eta_compresor : ℚ
  cop : ℚ
  temp_descarga_C : ℚ
  trabajo_kW : ℚ
  calor_extraido_kW : ℚ
  calidad_evap : ℚ
  estado : String
deriving DecidableEq

/-- One (tick, equipment) cell of the generation grid: derive the parameters,
invoke the solver inside the `try`, and on success classify and build the
row (drawing the interior-temperature jitter); on any solver failure the
`except` branch logs and appends nothing, so the cell yields `none`.  Note
the jitter draw happens only on success, exactly as in the source. -/
def paso_equipo (prop : PropiedadesR134a) (reloj : Reloj) (i : Nat)
    (t_ambiente : ℚ) (equipo : Equipo) (g : RandState) :
    Option Registro × RandState :=
  let (p, g2) := parametros_celda i t_ambiente equipo g
  match simular_refrigerador prop p.t_ambiente p.t_interior p.flujo p.eta p.delta_t_cond with
  | none => (none, g2)
  | some resultado =>
    let cop := resultado.COP
    let temp_descarga := resultado.Temp_Descarga_C
    let estado := clasificar_estado p.delta_t_cond cop
    let (jitter, g3) := random_uniform (-0.5) 0.5 g2
    (some ⟨reloj.timestamp i, equipo.id, t_ambiente,
           pyRound 1 (equipo.t_interior + jitter),
           pyRound 1 p.delta_t_cond, pyRound 3 p.eta, pyRound 2 cop,
           pyRound 1 temp_descarga, pyRound 3 resultado.Trabajo_Compresor_kW,
           pyRound 3 resultado.Calor_Extraido_kW,
           pyRound 3 resultado.Calidad_Evap, estado⟩, g3)

/-- The inner `for id_equipo, params in EQUIPOS.items()` loop: successful
cells append their row, failed cells are skipped, the loop always continues. -/
def correr_equipos (prop : PropiedadesR134a) (reloj : Reloj) (i : Nat)
    (t_ambiente : ℚ) : List Equipo → RandState → List Registro × RandState
  | [], g => ([], g)
  | equipo :: resto, g =>
    match paso_equipo prop reloj i t_ambiente equipo g with
    | (some r, g') =>
      let (rs, g'') := correr_equipos prop reloj i t_ambiente resto g'
      (r :: rs, g'')
    | (none, g') => correr_equipos prop reloj i t_ambiente resto g'

/-- The outer `for i in range(total_puntos)` loop: per tick, compute the
ambient temperature once, then run the equipment loop. -/
def correr_ticks (prop : PropiedadesR134a) (reloj : Reloj) :
    List Nat → RandState → List Registro × RandState
  | [], g => ([], g)
  | i :: resto, g =>
    let (t_ambiente, g1) := calcular_temperatura_ambiente (reloj.hora i) (reloj.dia_del_anio i) g
    let (rs, g2) := correr_equipos prop reloj i t_ambiente EQUIPOS g1
    let (rsResto, g3) := correr_ticks prop reloj resto g2
    (rs ++ rsResto, g3)

/-- The record sequence built by `generar_datos()` (lines 83-151): the loops
over the full `range(total_puntos) x EQUIPOS` grid.  CSV persistence and
printing are external collaborators and not modelled. -/
def generar_registros (prop : PropiedadesR134a) (reloj : Reloj) (g : RandState) :
    List Registro :=
  (correr_ticks prop reloj (List.range total_puntos) g).1

/-- Companion to `correr_equipos` that records one `Option Registro` per
visited cell instead of dropping the failed ones (used to state which cells
the generator visits and which rows it omits). -/
def celdas_equipos (prop : PropiedadesR134a) (reloj : Reloj) (i : Nat)
    (t_ambiente : ℚ) : List Equipo → RandState → List (Option Registro) × RandState
  | [], g => ([], g)
  | equipo :: resto, g =>
    let (r, g') := paso_equipo prop reloj i t_ambiente equipo g
    let (cs, g'') := celdas_equipos prop reloj i t_ambiente resto g'
    (r :: cs, g'')

/-- Companion to `correr_ticks` collecting the per-cell outcomes of every
tick of the grid. -/
def celdas_ticks (prop : PropiedadesR134a) (reloj : Reloj) :
    List Nat → RandState → List (Option Registro) × RandState
  | [], g => ([], g)
  | i :: resto, g =>
    let (t_ambiente, g1) := calcular_temperatura_ambiente (reloj.hora i) (reloj.dia_del_anio i) g
    let (cs, g2) := celdas_equipos prop reloj i t_ambiente EQUIPOS g1
    let (csResto, g3) := celdas_ticks prop reloj resto g2
    (cs ++ csResto, g3)

/-- The per-cell outcome of every cell of the full generation grid, in grid
order. -/
def celdas_grid (prop : PropiedadesR134a) (reloj : Reloj) (g : RandState) :
    List (Option Registro) :=
  (celdas_ticks prop reloj (List.range total_puntos) g).1

/-! ### Concrete provider instances and solver outputs used as evaluation data -/

/-- A concrete provider with physically ordered enthalpies
(`h2_ideal = 430000 > h1 = 400000`). -/
def prov_w : PropiedadesR134a :=
  constProv 400000 1700 1000000 430000 1750 250000 310 (3/10) 350 1200

/-- The record returned by `simular_refrigerador prov_w 20 4 (2/25) (3/4) 15`. -/
def r_w : Resultados :=
  ⟨16/5, 12, 15/4, 3/10, 1537/20, 2/25,
   ⟨1000000, 5543/20, 400000, 1700, "Entrada Compresor"⟩,
   ⟨1000000, 350, 440000, 1750, "Entrada Condensador"⟩,
   ⟨1000000, 310, 250000, 1200, "Salida Condensador"⟩,
   ⟨1000000, 5543/20, 250000, 1750, "Entrada Evaporador"⟩⟩

/-- The record returned by `simular_refrigerador prov_w 20 4 (2/25) 1 15`
(isentropic efficiency exactly 1). -/
def r_w1 : Resultados :=
  ⟨12/5, 12, 5, 3/10, 1537/20, 2/25,
   ⟨1000000, 5543/20, 400000, 1700, "Entrada Compresor"⟩,
   ⟨1000000, 350, 430000, 1750, "Entrada Condensador"⟩,
   ⟨1000000, 310, 250000, 1200, "Salida Condensador"⟩,
   ⟨1000000, 5543/20, 250000, 1750, "Entrada Evaporador"⟩⟩

/-- A provider for which isentropic compression lowers the enthalpy
(`h2_ideal = 390000 < h1 = 400000`), so the computed compressor work is
negative. -/
def prov_neg : PropiedadesR134a :=
  constProv 400000 1700 1000000 390000 1750 250000 310 (3/10) 350 1200

/-- The record returned by `simular_refrigerador prov_neg 20 4 (2/25) (3/4) 15`:
compressor work is negative and COP is reported as a plain negative number. -/
def r_neg : Resultados :=
  ⟨-(16/15), 12, -(45/4), 3/10, 1537/20, 2/25,
   ⟨1000000, 5543/20, 400000, 1700, "Entrada Compresor"⟩,
   ⟨1000000, 350, 1160000/3, 1750, "Entrada Condensador"⟩,
   ⟨1000000, 310, 250000, 1200, "Salida Condensador"⟩,
   ⟨1000000, 5543/20, 250000, 1750, "Entrada Evaporador"⟩⟩

/-- A provider that resolves the compressor-outlet entropy below the inlet
entropy (`s2 = 1600 < s1 = 1700`), an entropy-decrease violation. -/
def prov_s2baja : PropiedadesR134a :=
  constProv 400000 1700 1000000 430000 1600 250000 310 (3/10) 350 1200

/-- The record returned by
`simular_refrigerador prov_s2baja 20 4 (2/25) (3/4) 15`. -/
def r_s2baja : Resultados :=
  ⟨16/5, 12, 15/4, 3/10, 1537/20, 2/25,
   ⟨1000000, 5543/20, 400000, 1700, "Entrada Compresor"⟩,
   ⟨1000000, 350, 440000, 1600, "Entrada Condensador"⟩,
   ⟨1000000, 310, 250000, 1200, "Salida Condensador"⟩,
   ⟨1000000, 5543/20, 250000, 1600, "Entrada Evaporador"⟩⟩

/-- A provider that resolves the evaporator-inlet vapor quality to
`6/5 = 1.2`, outside `[0, 1]`. -/
def prov_x4 : PropiedadesR134a :=
  constProv 400000 1700 1000000 430000 1750 250000 310 (6/5) 350 1200

/-- The record returned by `simular_refrigerador prov_x4 20 4 (2/25) (3/4) 15`. -/
def r_x4 : Resultados :=
  ⟨16/5, 12, 15/4, 6/5, 1537/20, 2/25,
   ⟨1000000, 5543/20, 400000, 1700, "Entrada Compresor"⟩,
   ⟨1000000, 350, 440000, 1750, "Entrada Condensador"⟩,
   ⟨1000000, 310, 250000, 1200, "Salida Condensador"⟩,
   ⟨1000000, 5543/20, 250000, 1750, "Entrada Evaporador"⟩⟩

/-! ### Inversion of a successful solve -/

/-- A successful `simular_refrigerador` call determines every intermediate
lookup and the exact returned record. -/
theorem simular_refrigerador_eq_some {prop : PropiedadesR134a}
    {Ta Ti m eta dT : ℚ} {r : Resultados}
    (hr : simular_refrigerador prop Ta Ti m eta dT = some r) :
    ∃ h1 s1 Pc h2i s2 h3 T3c P4 x4 T2 s3 s4,
      prop.H_TQ (Ti + 273.15) 1 = some h1 ∧
      prop.S_TQ (Ti + 273.15) 1 = some s1 ∧
      prop.P_TQ (Ta + 273.15 + dT) 0 = some Pc ∧
      prop.H_PS Pc s1 = some h2i ∧
      eta ≠ 0 ∧
      prop.S_PH Pc (h1 + (h2i - h1) / eta) = some s2 ∧
      prop.H_PQ Pc 0 = some h3 ∧
      prop.T_PQ Pc 0 = some T3c ∧
      prop.P_TQ (Ti + 273.15) 1 = some P4 ∧
      prop.Q_PH P4 h3 = some x4 ∧
      m * (h1 + (h2i - h1) / eta - h1) ≠ 0 ∧
      prop.T_HP (h1 + (h2i - h1) / eta) Pc = some T2 ∧
      prop.S_PQ Pc 0 = some s3 ∧
      prop.S_PH P4 h3 = some s4 ∧
      r = ⟨m * (h1 + (h2i - h1) / eta - h1) / 1000, m * (h1 - h3) / 1000,
           m * (h1 - h3) / (m * (h1 + (h2i - h1) / eta - h1)), x4,
           T2 - 273.15, m,
           ⟨P4, Ti + 273.15, h1, s1, "Entrada Compresor"⟩,
           ⟨Pc, T2, h1 + (h2i - h1) / eta, s2, "Entrada Condensador"⟩,
           ⟨Pc, T3c, h3, s3, "Salida Condensador"⟩,
           ⟨P4, Ti + 273.15, h3, s4, "Entrada Evaporador"⟩⟩ := by
  simp only [simular_refrigerador] at hr
  repeat' split at hr
  any_goals cases hr
  exact ⟨_, _, _, _, _, _, _, _, _, _, _, _, by assumption, by assumption,
    by assumption, by assumption, by assumption, by assumption, by assumption,
    by assumption, by assumption, by assumption, by assumption, by assumption,
    by assumption, by assumption, rfl⟩

/-! ### Claims about the cycle solver -/

/-- C1 (counterexample): on an input whose computed compressor work is
negative, `simular_refrigerador` raises nothing and returns a result whose
compressor work is `≤ 0` and whose COP is reported as the plain finite
number `-45/4`; no `InvalidCycleError` exists in the code. -/
theorem C1_counterexample :
    simular_refrigerador prov_neg 20 4 (2/25) (3/4) 15 = some r_neg ∧
    r_neg.Trabajo_Compresor_kW ≤ 0 ∧ r_neg.COP = -(45/4) := by
  refine ⟨by norm_num [simular_refrigerador, prov_neg, constProv, r_neg], ?_, ?_⟩ <;>
    norm_num [r_neg]

/-- C1 (amended): `simular_refrigerador` performs no sign check on the
compressor work and raises no `InvalidCycleError`; every returned result has
nonzero compressor work (a zero value would be an unhandled
`ZeroDivisionError` at the COP division, hence no result) and its COP is
simply the quotient of the reported evaporator heat by the reported
compressor work, whatever their signs. -/
theorem C1_cop_cociente (prop : PropiedadesR134a) (Ta Ti m eta dT : ℚ)
    (r : Resultados) (hr : simular_refrigerador prop Ta Ti m eta dT = some r) :
    r.Trabajo_Compresor_kW ≠ 0 ∧
    r.COP = r.Calor_Extraido_kW / r.Trabajo_Compresor_kW := by
  obtain ⟨h1, s1, Pc, h2i, s2, h3, T3c, P4, x4, T2, s3, s4,
    _, _, _, _, _, _, _, _, _, _, hW, _, _, _, rfl⟩ := simular_refrigerador_eq_some hr
  constructor
  · exact div_ne_zero hW (by norm_num)
  · show m * (h1 - h3) / (m * (h1 + (h2i - h1) / eta - h1))
      = m * (h1 - h3) / 1000 / (m * (h1 + (h2i - h1) / eta - h1) / 1000)
    rw [div_div_div_cancel_right₀]
    norm_num

/-- C1 witness: the amended statement evaluated on a concrete negative-work
cycle. -/
theorem C1_cop_cociente_witness :
    r_neg.Trabajo_Compresor_kW ≠ 0 ∧
    r_neg.COP = r_neg.Calor_Extraido_kW / r_neg.Trabajo_Compresor_kW :=
  C1_cop_cociente prov_neg 20 4 (2/25) (3/4) 15 r_neg
    (by norm_num [simular_refrigerador, prov_neg, constProv, r_neg])

/-- C2 (counterexample): a mass flow of `-1 <= 0` is not rejected:
`simular_refrigerador` runs to completion and returns a result, raising no
`InvalidParameterError` (which does not exist in the code). -/
theorem C2_counterexample :
    ((-1 : ℚ) ≤ 0) ∧
    (simular_refrigerador prov_w 20 4 (-1) (3/4) 15).isSome = true := by
  refine ⟨by norm_num, ?_⟩
  norm_num [simular_refrigerador, prov_w, constProv, Option.isSome]

/-- C2 (amended): `simular_refrigerador` performs no parameter validation at
all: for any parameter values whatsoever (mass flow `≤ 0`, efficiency
outside `(0,1]`, condenser delta-T `≤ 0`, implausible temperatures), as long
as the provider resolves its queries and no division by zero occurs, the
solve completes and returns a result. -/
theorem C2_sin_validacion (h1c s1c pcc h2ic s2c h3c t3c x4c t2c s3c
    Ta Ti m eta dT : ℚ) (heta : eta ≠ 0)
    (hW : m * (h1c + (h2ic - h1c) / eta - h1c) ≠ 0) :
    (simular_refrigerador (constProv h1c s1c pcc h2ic s2c h3c t3c x4c t2c s3c)
        Ta Ti m eta dT).isSome = true := by
  simp only [simular_refrigerador, constProv]
  rw [if_neg heta, if_neg hW]
  rfl

/-- C2 witness: the amended statement evaluated at mass flow `-1`,
efficiency `3/2` outside `(0,1]` and condenser delta-T `-5`. -/
theorem C2_sin_validacion_witness :
    (simular_refrigerador (constProv 400000 1700 1000000 430000 1750 250000
        310 (3/10) 350 1200) 20 4 (-1) (3/2) (-5)).isSome = true :=
  C2_sin_validacion 400000 1700 1000000 430000 1750 250000 310 (3/10) 350 1200
    20 4 (-1) (3/2) (-5) (by norm_num) (by norm_num)

/-- C3: for every solved cycle, the throttling is isenthalpic (state 4 keeps
state 3's enthalpy) and compressor work plus evaporator heat equals the
condenser heat rejected `mass_flow * (h2 - h3)` exactly over the embedded
rational arithmetic. -/
theorem C3_balance_energia (prop : PropiedadesR134a) (Ta Ti m eta dT : ℚ)
    (r : Resultados) (hr : simular_refrigerador prop Ta Ti m eta dT = some r) :
    r.estado4.h = r.estado3.h ∧
    r.Trabajo_Compresor_kW + r.Calor_Extraido_kW
      = r.Flujo_Masico_kg_s * (r.estado2.h - r.estado3.h) / 1000 := by
  obtain ⟨h1, s1, Pc, h2i, s2, h3, T3c, P4, x4, T2, s3, s4,
    _, _, _, _, _, _, _, _, _, _, _, _, _, _, rfl⟩ := simular_refrigerador_eq_some hr
  exact ⟨rfl, by dsimp only; ring⟩

/-- C3 witness: the energy balance evaluated on a concrete solved cycle. -/
theorem C3_balance_energia_witness :
    r_w.estado4.h = r_w.estado3.h ∧
    r_w.Trabajo_Compresor_kW + r_w.Calor_Extraido_kW
      = r_w.Flujo_Masico_kg_s * (r_w.estado2.h - r_w.estado3.h) / 1000 :=
  C3_balance_energia prov_w 20 4 (2/25) (3/4) 15 r_w
    (by norm_num [simular_refrigerador, prov_w, constProv, r_w])

/-- C4: the real compressor-outlet enthalpy equals
`h1 + (h2_ideal - h1) / eta`; whenever the provider satisfies the physical
invariant `h1 ≤ h2_ideal` (compression never decreases enthalpy) and
`eta ∈ (0,1]`, the real `h2` is at least `h2_ideal`; at `eta = 1` it equals
`h2_ideal` exactly. -/
theorem C4_entalpia_real (prop : PropiedadesR134a) (Ta Ti m eta dT : ℚ)
    (r : Resultados) (h2i : ℚ)
    (hr : simular_refrigerador prop Ta Ti m eta dT = some r)
    (hlook : prop.H_PS r.estado2.P r.estado1.s = some h2i) :
    r.estado2.h = r.estado1.h + (h2i - r.estado1.h) / eta ∧
    (0 < eta → eta ≤ 1 → r.estado1.h ≤ h2i → h2i ≤ r.estado2.h) ∧
    (eta = 1 → r.estado2.h = h2i) := by
  obtain ⟨h1, s1, Pc, h2x, s2, h3, T3c, P4, x4, T2, s3, s4,
    _, _, _, hps, _, _, _, _, _, _, _, _, _, _, rfl⟩ := simular_refrigerador_eq_some hr
  dsimp only at hlook ⊢
  rw [hps] at hlook
  have he : h2x = h2i := Option.some_inj.mp hlook
  subst he
  refine ⟨rfl, ?_, ?_⟩
  · intro h0 hle1 hle
    have hd : (0 : ℚ) ≤ h2x - h1 := by linarith
    have hq : h2x - h1 ≤ (h2x - h1) / eta := by
      rw [le_div_iff₀ h0]; nlinarith
    linarith
  · intro he1; subst he1; rw [div_one]; ring

/-- C4 witness: the enthalpy identity evaluated at `eta = 3/4` (where
`h2 = 440000 ≥ h2_ideal = 430000`) and at `eta = 1` (where `h2 = h2_ideal`). -/
theorem C4_entalpia_real_witness :
    (r_w.estado2.h = r_w.estado1.h + ((430000 : ℚ) - r_w.estado1.h) / (3/4) ∧
      (430000 : ℚ) ≤ r_w.estado2.h) ∧
    r_w1.estado2.h = 430000 := by
  have hw := C4_entalpia_real prov_w 20 4 (2/25) (3/4) 15 r_w 430000
    (by norm_num [simular_refrigerador, prov_w, constProv, r_w]) rfl
  have hw1 := C4_entalpia_real prov_w 20 4 (2/25) 1 15 r_w1 430000
    (by norm_num [simular_refrigerador, prov_w, constProv, r_w1]) rfl
  exact ⟨⟨hw.1, hw.2.1 (by norm_num) (by norm_num) (by norm_num [r_w])⟩,
    hw1.2.2 rfl⟩

/-- C7 (counterexample): a cycle whose outlet entropy `s2 = 1600` is below
the inlet entropy `s1 = 1700` is returned as an ordinary result; no check is
performed and the returned record (which has no warning field at all) is
indistinguishable from a consistent one. -/
theorem C7_counterexample :
    simular_refrigerador prov_s2baja 20 4 (2/25) (3/4) 15 = some r_s2baja ∧
    r_s2baja.estado2.s < r_s2baja.estado1.s := by
  refine ⟨?_, by norm_num [r_s2baja]⟩
  norm_num [simular_refrigerador, prov_s2baja, constProv, r_s2baja]

/-- C7 (amended): `simular_refrigerador` computes `s2` from `(P2, h2)` but
never compares it with `s1`: for any provider entropies `s1c`, `s2c` in any
order, the solve returns the same result shape, carrying both values
verbatim and no warning. -/
theorem C7_sin_chequeo_entropia (h1c s1c pcc h2ic s2c h3c t3c x4c t2c s3c
    Ta Ti m eta dT : ℚ) (heta : eta ≠ 0)
    (hW : m * (h1c + (h2ic - h1c) / eta - h1c) ≠ 0) :
    (simular_refrigerador (constProv h1c s1c pcc h2ic s2c h3c t3c x4c t2c s3c)
        Ta Ti m eta dT).map (fun r => (r.estado1.s, r.estado2.s))
      = some (s1c, s2c) := by
  simp only [simular_refrigerador, constProv]
  rw [if_neg heta, if_neg hW]
  rfl

/-- C7 witness: the amended statement evaluated at `s1c = 1700`,
`s2c = 1600`, an entropy-decreasing pair returned without any failure. -/
theorem C7_sin_chequeo_entropia_witness :
    (simular_refrigerador (constProv 400000 1700 1000000 430000 1600 250000
        310 (3/10) 350 1200) 20 4 (2/25) (3/4) 15).map
        (fun r => (r.estado1.s, r.estado2.s)) = some (1700, 1600) :=
  C7_sin_chequeo_entropia 400000 1700 1000000 430000 1600 250000 310 (3/10)
    350 1200 20 4 (2/25) (3/4) 15 (by norm_num) (by norm_num)

/-- C8: the reported evaporator-inlet quality is exactly the value the
provider resolves from `(P4, h4)` — never clamped — so a resolved quality
outside `[0,1]` appears verbatim (as the anomaly) in the result. -/
theorem C8_calidad_sin_recorte (prop : PropiedadesR134a) (Ta Ti m eta dT : ℚ)
    (r : Resultados) (hr : simular_refrigerador prop Ta Ti m eta dT = some r) :
    prop.Q_PH r.estado4.P r.estado4.h = some r.Calidad_Evap ∧
    (∀ y, prop.Q_PH r.estado4.P r.estado4.h = some y → y < 0 ∨ 1 < y →
      r.Calidad_Evap < 0 ∨ 1 < r.Calidad_Evap) := by
  obtain ⟨h1, s1, Pc, h2i, s2, h3, T3c, P4, x4, T2, s3, s4,
    _, _, _, _, _, _, _, _, _, hq, _, _, _, _, rfl⟩ := simular_refrigerador_eq_some hr
  dsimp only
  refine ⟨hq, ?_⟩
  intro y hy hrange
  rw [hq] at hy
  obtain rfl : x4 = y := Option.some_inj.mp hy
  exact hrange

/-- C8 witness: with a provider resolving the quality to `6/5`, the result
reports exactly `6/5`, which lies outside `[0,1]`. -/
theorem C8_calidad_sin_recorte_witness :
    prov_x4.Q_PH r_x4.estado4.P r_x4.estado4.h = some r_x4.Calidad_Evap ∧
    (r_x4.Calidad_Evap < 0 ∨ 1 < r_x4.Calidad_Evap) := by
  have h := C8_calidad_sin_recorte prov_x4 20 4 (2/25) (3/4) 15 r_x4
    (by norm_num [simular_refrigerador, prov_x4, constProv, r_x4])
  exact ⟨h.1, h.2 (6/5) h.1 (by norm_num [r_x4])⟩

/-! ### Claims about the telemetry generator -/

/-- C5: the inline state classification is the stated pure threshold
function of the (unrounded) condenser delta-T and COP, the ALARM test is
evaluated strictly before the WARNING test (an input satisfying both is
ALARM), and the scenario delta-T 30, COP 1.8 classifies as ALARM. -/
theorem C5_clasificador :
    (∀ dt cop : ℚ,
      (clasificar_estado dt cop = "ALARMA" ↔ (dt > 25 ∨ cop < 2.0)) ∧
      (clasificar_estado dt cop = "ADVERTENCIA" ↔
        (¬(dt > 25 ∨ cop < 2.0) ∧ (dt > 20 ∨ cop < 2.5))) ∧
      (clasificar_estado dt cop = "NORMAL" ↔
        (¬(dt > 25 ∨ cop < 2.0) ∧ ¬(dt > 20 ∨ cop < 2.5))) ∧
      ((dt > 25 ∨ cop < 2.0) ∧ (dt > 20 ∨ cop < 2.5) →
        clasificar_estado dt cop = "ALARMA")) ∧
    clasificar_estado 30 1.8 = "ALARMA" := by
  constructor
  · intro dt cop
    unfold clasificar_estado
    split_ifs with hA hW <;> simp_all
  · norm_num [clasificar_estado]

/-- C5 witness: the classifier evaluated on the scenario input
(delta-T 30, COP 1.8) and on an input meeting both the ALARM and the
WARNING conditions (delta-T 22, COP 1.5). -/
theorem C5_clasificador_witness :
    clasificar_estado 30 1.8 = "ALARMA" ∧
    clasificar_estado 22 1.5 = "ALARMA" :=
  ⟨C5_clasificador.2,
   (C5_clasificador.1 22 1.5).2.2.2 ⟨Or.inr (by norm_num), Or.inl (by norm_num)⟩⟩

/-- C6 (counterexample): with identical configuration (the source's constants
and the same hour 15 and day-of-year 172) but two different states of the
implicit module-global generator, the produced ambient temperature differs:
the Gaussian noise is read from global state that is not part of any
supplied, seedable source (the code has no seed parameter at all). -/
theorem C6_counterexample :
    (calcular_temperatura_ambiente 15 172 ⟨fun _ => 0, 0⟩).1
      ≠ (calcular_temperatura_ambiente 15 172 ⟨fun _ => 1, 0⟩).1 := by
  norm_num [calcular_temperatura_ambiente, random_gauss, siguiente, pyRound,
    round_half_even]

/-- C6 (amended): every stochastic component reads the module-global
generator: the ambient-temperature output is exactly the deterministic
seasonal and diurnal terms plus `1.5` times the global state's current draw,
and the global cursor advances by one; so runs are value-identical exactly
when the ambient global generator state (never part of the configuration,
which has no seed field) happens to coincide. -/
theorem C6_ruido_global (hora dia : ℤ) (g : RandState) :
    (calcular_temperatura_ambiente hora dia g).1
      = pyRound 1 ((-5) + (10 - (-5)) * (0.5 * (1 + ((dia : ℚ) - 172) / 172))
          + 4 * (1 - |(hora : ℚ) - 15| / 12) + (0 + 1.5 * g.draws g.idx)) ∧
    (calcular_temperatura_ambiente hora dia g).2 = ⟨g.draws, g.idx + 1⟩ := by
  exact ⟨rfl, rfl⟩

/-- The equipment loop yields exactly the successful cells of its
per-cell outcomes, in order. -/
theorem correr_equipos_eq_celdas (prop : PropiedadesR134a) (reloj : Reloj)
    (i : Nat) (t_amb : ℚ) :
    ∀ (es : List Equipo) (g : RandState),
      correr_equipos prop reloj i t_amb es g
        = ((celdas_equipos prop reloj i t_amb es g).1.reduceOption,
           (celdas_equipos prop reloj i t_amb es g).2) := by
  intro es
  induction es with
  | nil => intro g; rfl
  | cons e resto ih =>
    intro g
    rcases hpe : paso_equipo prop reloj i t_amb e g with ⟨ro, g'⟩
    rcases ro with _ | r <;>
      simp [correr_equipos, celdas_equipos, hpe, ih g']

/-- The tick loop yields exactly the successful cells of its per-cell
outcomes, in order. -/
theorem correr_ticks_eq_celdas (prop : PropiedadesR134a) (reloj : Reloj) :
    ∀ (ticks : List Nat) (g : RandState),
      correr_ticks prop reloj ticks g
        = ((celdas_ticks prop reloj ticks g).1.reduceOption,
           (celdas_ticks prop reloj ticks g).2) := by
  intro ticks
  induction ticks with
  | nil => intro g; rfl
  | cons i resto ih =>
    intro g
    simp [correr_ticks, celdas_ticks, correr_equipos_eq_celdas, ih,
      List.reduceOption_append]

/-- The equipment loop visits every configured equipment unit. -/
theorem celdas_equipos_length (prop : PropiedadesR134a) (reloj : Reloj)
    (i : Nat) (t_amb : ℚ) :
    ∀ (es : List Equipo) (g : RandState),
      (celdas_equipos prop reloj i t_amb es g).1.length = es.length := by
  intro es
  induction es with
  | nil => intro g; rfl
  | cons e resto ih => intro g; simp [celdas_equipos, ih]

/-- The tick loop visits every (tick, equipment) cell. -/
theorem celdas_ticks_length (prop : PropiedadesR134a) (reloj : Reloj) :
    ∀ (ticks : List Nat) (g : RandState),
      (celdas_ticks prop reloj ticks g).1.length
        = ticks.length * EQUIPOS.length := by
  intro ticks
  induction ticks with
  | nil => intro g; rfl
  | cons i resto ih =>
    intro g
    simp [celdas_ticks, celdas_equipos_length, ih, Nat.succ_mul, Nat.add_comm]

/-- C9: generation visits the entire `total_puntos x EQUIPOS` grid (the
per-cell outcome list has exactly `total_puntos * 3` entries) and returns
precisely the successful cells' records in grid order: a cell whose solve
fails contributes `none` — caught at the cell, nothing appended — and every
other cell's record is kept, so a failure omits only its own record and
never aborts the run. -/
theorem C9_fallo_por_celda (prop : PropiedadesR134a) (reloj : Reloj)
    (g : RandState) :
    generar_registros prop reloj g = (celdas_grid prop reloj g).reduceOption ∧
    (celdas_grid prop reloj g).length = total_puntos * EQUIPOS.length := by
  unfold generar_registros celdas_grid
  constructor
  · rw [correr_ticks_eq_celdas]
  · rw [celdas_ticks_length, List.length_range]

/-- The clamped efficiency expression stays in `[0.72, 0.77]` and equals the
unclamped baseline-plus-jitter whenever the jitter fraction lies in `[0,1]`:
the clamp to `[0.60, 0.85]` never binds. -/
theorem eta_jitter_bounds (u : ℚ) (hu0 : 0 ≤ u) (hu1 : u ≤ 1) :
    0.72 ≤ max 0.60 (min 0.85 (0.75 + (-0.03 + (0.02 - -0.03) * u))) ∧
    max 0.60 (min 0.85 (0.75 + (-0.03 + (0.02 - -0.03) * u))) ≤ 0.77 ∧
    ∃ v, -0.03 ≤ v ∧ v ≤ 0.02 ∧
      max 0.60 (min 0.85 (0.75 + (-0.03 + (0.02 - -0.03) * u))) = 0.75 + v := by
  have hv1 : (-0.03 : ℚ) ≤ -0.03 + (0.02 - -0.03) * u := by nlinarith
  have hv2 : (-0.03 : ℚ) + (0.02 - -0.03) * u ≤ 0.02 := by nlinarith
  have hmin : min (0.85 : ℚ) (0.75 + (-0.03 + (0.02 - -0.03) * u))
      = 0.75 + (-0.03 + (0.02 - -0.03) * u) := min_eq_right (by nlinarith)
  have hmax : max (0.60 : ℚ) (0.75 + (-0.03 + (0.02 - -0.03) * u))
      = 0.75 + (-0.03 + (0.02 - -0.03) * u) := max_eq_right (by nlinarith)
  rw [hmin, hmax]
  exact ⟨by nlinarith, by nlinarith, ⟨-0.03 + (0.02 - -0.03) * u, hv1, hv2, rfl⟩⟩

/-- The degraded condenser delta-T never drops below the base 15: the
door-opening excursion is nonnegative and, inside the fouling window
(`dias_restantes ≤ 2`), the inflation factor is at least 1. -/
theorem delta_degradada_cota (a : ℚ) (d : ℤ) (ha : 0 ≤ a) :
    (15 : ℚ) ≤ (if d ≤ 2 then (15 + a) * (1 + (2 - (d : ℚ)) * 0.7) else 15 + a) := by
  split_ifs with hd
  · have hdq : (d : ℚ) ≤ 2 := by exact_mod_cast hd
    nlinarith
  · linarith

/-- The parameters built for one cell: the flow and interior temperature are
the unit's static configuration, the efficiency is the clamped jittered
baseline for some jitter fraction `u` drawn from the global stream, and the
delta-T is the base 15 plus a nonnegative excursion `a`, inflated in the
fouling window. -/
theorem parametros_celda_spec (i : Nat) (t_amb : ℚ) (equipo : Equipo)
    (g : RandState) (hdraws : ∀ n, 0 ≤ g.draws n ∧ g.draws n ≤ 1) :
    ∃ a u, 0 ≤ a ∧ 0 ≤ u ∧ u ≤ 1 ∧
      (parametros_celda i t_amb equipo g).1
        = ⟨t_amb, equipo.t_interior, equipo.flujo,
           max 0.60 (min 0.85 (0.75 + (-0.03 + (0.02 - -0.03) * u))),
           if (DIAS_SIMULACION : ℤ) - (i : ℤ) / 24 ≤ 2 then
             (15 + a) * (1
               + (2 - (((DIAS_SIMULACION : ℤ) - (i : ℤ) / 24 : ℤ) : ℚ)) * 0.7)
           else 15 + a⟩ := by
  unfold parametros_celda simular_evento_apertura_puerta random_uniform
    random_random siguiente
  dsimp only
  by_cases hc1 : g.draws g.idx < 0.05
  · rw [if_pos hc1]
    dsimp only
    refine ⟨3 + (8 - 3) * g.draws (g.idx + 1), g.draws (g.idx + 1 + 1), ?_,
      (hdraws _).1, (hdraws _).2, rfl⟩
    nlinarith [(hdraws (g.idx + 1)).1]
  · rw [if_neg hc1]
    by_cases hc2 : g.draws g.idx < 0.20
    · rw [if_pos hc2]
      dsimp only
      refine ⟨1 + (3 - 1) * g.draws (g.idx + 1), g.draws (g.idx + 1 + 1), ?_,
        (hdraws _).1, (hdraws _).2, rfl⟩
      nlinarith [(hdraws (g.idx + 1)).1]
    · rw [if_neg hc2]
      dsimp only
      exact ⟨0, g.draws (g.idx + 1), le_refl 0, (hdraws _).1, (hdraws _).2, rfl⟩

/-- C10: every parameter set the generator builds for the solver satisfies
the solver's preconditions: the mass flow is one of the two configured
nominal flows (hence positive), the efficiency lies in `[0.72, 0.77]` and is
the unclamped baseline `0.75` plus a jitter in `[-0.03, 0.02]` (the clamp to
`[0.60, 0.85]` never binds), and the condenser delta-T is at least 15,
whenever the global draws consumed here lie in `[0,1]` (the contract of
`random.random` / `random.uniform`). -/
theorem C10_parametros_validos (i : Nat) (t_amb : ℚ) (equipo : Equipo)
    (g : RandState) (hmem : equipo ∈ EQUIPOS)
    (hdraws : ∀ n, 0 ≤ g.draws n ∧ g.draws n ≤ 1) :
    ((parametros_celda i t_amb equipo g).1.flujo = 0.08 ∨
      (parametros_celda i t_amb equipo g).1.flujo = 0.12) ∧
    0 < (parametros_celda i t_amb equipo g).1.flujo ∧
    0.72 ≤ (parametros_celda i t_amb equipo g).1.eta ∧
    (parametros_celda i t_amb equipo g).1.eta ≤ 0.77 ∧
    (∃ v, -0.03 ≤ v ∧ v ≤ 0.02 ∧
      (parametros_celda i t_amb equipo g).1.eta = 0.75 + v) ∧
    15 ≤ (parametros_celda i t_amb equipo g).1.delta_t_cond := by
  have hflujo : equipo.flujo = 0.08 ∨ equipo.flujo = 0.12 := by
    simp only [EQUIPOS, List.mem_cons, List.not_mem_nil, or_false] at hmem
    rcases hmem with h | h | h <;> subst h
    · right; rfl
    · left; rfl
    · left; rfl
  have hfpos : 0 < equipo.flujo := by
    rcases hflujo with h | h <;> rw [h] <;> norm_num
  obtain ⟨a, u, ha, hu0, hu1, hp⟩ := parametros_celda_spec i t_amb equipo g hdraws
  rw [hp]
  obtain ⟨he1, he2, he3⟩ := eta_jitter_bounds u hu0 hu1
  exact ⟨hflujo, hfpos, he1, he2, he3, delta_degradada_cota a _ ha⟩

/-- C10 witness: the parameter bounds evaluated at tick 0 for the first
configured equipment unit, with the constant one-half draw stream. -/
theorem C10_parametros_validos_witness :
    ((parametros_celda 0 10 ⟨"CAMARA_01_CARNES", -18, 0.12⟩
        ⟨fun _ => 1/2, 0⟩).1.flujo = 0.08 ∨
      (parametros_celda 0 10 ⟨"CAMARA_01_CARNES", -18, 0.12⟩
        ⟨fun _ => 1/2, 0⟩).1.flujo = 0.12) ∧
    0 < (parametros_celda 0 10 ⟨"CAMARA_01_CARNES", -18, 0.12⟩
        ⟨fun _ => 1/2, 0⟩).1.flujo ∧
    0.72 ≤ (parametros_celda 0 10 ⟨"CAMARA_01_CARNES", -18, 0.12⟩
        ⟨fun _ => 1/2, 0⟩).1.eta ∧
    (parametros_celda 0 10 ⟨"CAMARA_01_CARNES", -18, 0.12⟩
        ⟨fun _ => 1/2, 0⟩).1.eta ≤ 0.77 ∧
    (∃ v, -0.03 ≤ v ∧ v ≤ 0.02 ∧
      (parametros_celda 0 10 ⟨"CAMARA_01_CARNES", -18, 0.12⟩
        ⟨fun _ => 1/2, 0⟩).1.eta = 0.75 + v) ∧
    15 ≤ (parametros_celda 0 10 ⟨"CAMARA_01_CARNES", -18, 0.12⟩
        ⟨fun _ => 1/2, 0⟩).1.delta_t_cond :=
  C10_parametros_validos 0 10 ⟨"CAMARA_01_CARNES", -18, 0.12⟩
    ⟨fun _ => 1/2, 0⟩ (List.mem_cons_self _ _)
    (fun _ => ⟨by norm_num, by norm_num⟩)

end SimRefri
